import Mathlib

/-!
Shallow embedding of the Port-and-Adapters book repository.

The repository exposes CRUD/search/health operations over a book table
through two database adapters (PostgresAdapter, MySQLAdapter) and manages
them through a registry/factory (AdapterFactory).  The database is embedded
as a list of rows in insertion order; every adapter call is a pure function
from the current table contents (and, where the behaviour depends on it, the
abstract outcome of the backend round-trip) to its result and the new table
contents.  SQL `ORDER BY created_on DESC` is embedded as a sort by the
`created_on` field; SQL `LIKE` with a pattern enclosed in percent signs is
embedded as substring containment, with the case behaviour of the collation
made explicit as a parameter where the dialect makes it collation dependent.
-/

/-- A stored book row.  Identifiers are kept in their canonical external
string form (the Postgres adapter converts its native UUID with `str`, the
MySQL adapter stores CHAR(36) text).  `created_on` is an abstract creation
timestamp. -/
structure Book where
  id : String
  title : String
  author : String
  year : Int
  created_on : Nat
deriving Repr, DecidableEq

/-- Python truthiness of an optional string argument: `if title:` is true
exactly when the argument was passed and is non-empty. -/
def truthyStr : Option String → Bool
  | none => false
  | some s => !(s == "")

/-- Python truthiness of an optional integer argument: `if year:` is true
exactly when the argument was passed and is nonzero. -/
def truthyInt : Option Int → Bool
  | none => false
  | some n => !(n == 0)

/-- SQL `LIKE` against the pattern percent-pat-percent: the pattern occurs
as a contiguous substring of the field, compared case-sensitively. -/
def likeMatch (field pat : String) : Bool :=
  decide (pat.data <:+: field.data)

/-- Case-folding of a string, character by character, as `LOWER` does. -/
def lowerChars (s : String) : List Char :=
  s.data.map Char.toLower

/-- Postgres `ILIKE`: case-insensitive `LIKE`, independent of collation. -/
def ilikeMatch (field pat : String) : Bool :=
  decide (lowerChars pat <:+: lowerChars field)

/-- MySQL `LIKE`: its case behaviour depends on the column collation.
Under a case-insensitive (ci) collation it compares case-insensitively,
under a case-sensitive or binary collation it compares case-sensitively. -/
def mysqlLikeMatch (ciCollation : Bool) (field pat : String) : Bool :=
  if ciCollation then ilikeMatch field pat else likeMatch field pat

/-- The ordering used by `ORDER BY created_on DESC`. -/
def createdDesc (a b : Book) : Prop :=
  b.created_on ≤ a.created_on

instance : DecidableRel createdDesc :=
  fun a b => Nat.decLe b.created_on a.created_on

instance : IsTotal Book createdDesc :=
  ⟨fun a b => Nat.le_total b.created_on a.created_on⟩

instance : IsTrans Book createdDesc :=
  ⟨fun _ _ _ hab hbc => Nat.le_trans hbc hab⟩

/-- Embedding of `ORDER BY created_on DESC` on a result set. -/
def orderByCreatedDesc (rows : List Book) : List Book :=
  List.insertionSort createdDesc rows

/-- Outcome of one round-trip to the backend: success, or a failure of the
kind the adapters catch (`SQLAlchemyError`), carrying its message. -/
def DbOutcome : Type := Except String Unit

/-- The status record returned by `health_check`; the failure message, when
present, is embedded as data under the `error` key. -/
structure HealthRecord where
  adapter : String
  status : String
  error : Option String
  timestamp : String
deriving Repr, DecidableEq

namespace PostgresAdapter

/-- Source: `PostgresAdapter.adapter_name`. -/
def adapter_name : String := "postgresql"

/-- Source: `PostgresAdapter.get_book` — `SELECT ... WHERE id = book_id`,
`scalar_one_or_none`. -/
def get_book (db : List Book) (book_id : String) : Option Book :=
  db.find? (fun b => b.id == book_id)

/-- Source: `PostgresAdapter.get_books` — select, order by `created_on`
descending, then `OFFSET skip LIMIT limit`. -/
def get_books (db : List Book) (skip limit : Nat) : List Book :=
  ((orderByCreatedDesc db).drop skip).take limit

/-- Source: `PostgresAdapter.update_book`.  The update-values dictionary
holds exactly the arguments that are not None; when it is empty the method
returns `get_book` without issuing an update; otherwise it issues
`UPDATE ... WHERE id = book_id ... RETURNING` and returns the updated row
or None when no row matched. -/
def update_book (db : List Book) (book_id : String)
    (title : Option String) (author : Option String) (year : Option Int) :
    List Book × Option Book :=
  if title.isNone && author.isNone && year.isNone then
    (db, get_book db book_id)
  else
    let db2 := db.map (fun b =>
      if b.id == book_id then
        { b with
          title := title.getD b.title
          author := author.getD b.author
          year := year.getD b.year }
      else b)
    (db2, db2.find? (fun b => b.id == book_id))

/-- Source: `PostgresAdapter.delete_book` — `DELETE ... WHERE id = book_id`,
returning `rowcount > 0`. -/
def delete_book (db : List Book) (book_id : String) : List Book × Bool :=
  let db2 := db.filter (fun b => !(b.id == book_id))
  let rowcount := db.countP (fun b => b.id == book_id)
  (db2, decide (0 < rowcount))

/-- Source: `PostgresAdapter.search_books` — each truthy argument adds a
WHERE clause (`ILIKE` for title and author, equality for year), then the
result is ordered by `created_on` descending. -/
def search_books (db : List Book)
    (title : Option String) (author : Option String) (year : Option Int) :
    List Book :=
  let rows := db.filter (fun b =>
    (!truthyStr title || ilikeMatch b.title (title.getD "")) &&
    (!truthyStr author || ilikeMatch b.author (author.getD "")) &&
    (!truthyInt year || b.year == year.getD 0))
  orderByCreatedDesc rows

/-- Source: `PostgresAdapter.health_check` — runs `SELECT 1`; on success
returns a healthy status record, on `SQLAlchemyError` returns an unhealthy
status record with the message embedded under `error`. -/
def health_check (execute_result : DbOutcome) (timestamp : String) :
    HealthRecord :=
  match execute_result with
  | .ok _ =>
      { adapter := adapter_name, status := "healthy"
        error := none, timestamp := timestamp }
  | .error e =>
      { adapter := adapter_name, status := "unhealthy"
        error := some e, timestamp := timestamp }

end PostgresAdapter

namespace MySQLAdapter

/-- Source: `MySQLAdapter.adapter_name`. -/
def adapter_name : String := "mysql"

/-- Source: `MySQLAdapter.get_book` — `SELECT ... WHERE id = str(book_id)`,
`scalar_one_or_none`. -/
def get_book (db : List Book) (book_id : String) : Option Book :=
  db.find? (fun b => b.id == book_id)

/-- Source: `MySQLAdapter.get_books`. -/
def get_books (db : List Book) (skip limit : Nat) : List Book :=
  ((orderByCreatedDesc db).drop skip).take limit

/-- Source: `MySQLAdapter.update_book`.  Same update-values construction as
the Postgres adapter, but the updated row is obtained by a second read:
when `rowcount > 0` the method re-reads with `get_book`, else returns
None. -/
def update_book (db : List Book) (book_id : String)
    (title : Option String) (author : Option String) (year : Option Int) :
    List Book × Option Book :=
  if title.isNone && author.isNone && year.isNone then
    (db, get_book db book_id)
  else
    let db2 := db.map (fun b =>
      if b.id == book_id then
        { b with
          title := title.getD b.title
          author := author.getD b.author
          year := year.getD b.year }
      else b)
    let rowcount := db.countP (fun b => b.id == book_id)
    (db2, if 0 < rowcount then get_book db2 book_id else none)

/-- Source: `MySQLAdapter.delete_book`. -/
def delete_book (db : List Book) (book_id : String) : List Book × Bool :=
  let db2 := db.filter (fun b => !(b.id == book_id))
  let rowcount := db.countP (fun b => b.id == book_id)
  (db2, decide (0 < rowcount))

/-- Source: `MySQLAdapter.search_books` — like the Postgres version but the
title and author clauses use `LIKE`, whose case behaviour depends on the
column collation (`ciCollation`). -/
def search_books (ciCollation : Bool) (db : List Book)
    (title : Option String) (author : Option String) (year : Option Int) :
    List Book :=
  let rows := db.filter (fun b =>
    (!truthyStr title || mysqlLikeMatch ciCollation b.title (title.getD "")) &&
    (!truthyStr author || mysqlLikeMatch ciCollation b.author (author.getD "")) &&
    (!truthyInt year || b.year == year.getD 0))
  orderByCreatedDesc rows

/-- Source: `MySQLAdapter.health_check`. -/
def health_check (execute_result : DbOutcome) (timestamp : String) :
    HealthRecord :=
  match execute_result with
  | .ok _ =>
      { adapter := adapter_name, status := "healthy"
        error := none, timestamp := timestamp }
  | .error e =>
      { adapter := adapter_name, status := "unhealthy"
        error := some e, timestamp := timestamp }

end MySQLAdapter

/-- Errors raised by the factory: the `ValueError` of `create` (carrying the
list of currently registered names shown in its message), the `ValueError`
of `register` on a duplicate name, and the `TypeError` of `register` when
the class is not a `BaseAdapter` subclass. -/
inductive FactoryError where
  | notRegistered (name : String) (available : List String)
  | alreadyRegistered (name : String)
  | typeMismatch
deriving Repr, DecidableEq

/-- A live adapter instance: the class it was constructed from, and a serial
number recording which construction produced it. -/
structure AdapterInstance where
  className : String
  serial : Nat
deriving Repr, DecidableEq

/-- The class-level mutable state of `AdapterFactory`: the registry dict
(name to adapter class, classes identified by name), the instance cache
dict (name to live instance), and a counter of constructions performed so
far, used to give each constructed instance a fresh serial number.  Python
dicts preserve insertion order, so both are association lists. -/
structure FactoryState where
  registry : List (String × String)
  instances : List (String × AdapterInstance)
  constructions : Nat
deriving Repr, DecidableEq

namespace AdapterFactory

/-- Source: `AdapterFactory.get_registered_adapters` —
`list(cls._registry.keys())`. -/
def get_registered_adapters (s : FactoryState) : List String :=
  s.registry.map Prod.fst

/-- Source: `AdapterFactory.register` — raises on a duplicate name, raises
on a class that is not a `BaseAdapter` subclass (the subclass test is the
abstract boolean `isSubclass`), otherwise adds the registry entry. -/
def register (s : FactoryState) (name : String) (adapter_class : String)
    (isSubclass : Bool) : FactoryState × Except FactoryError Unit :=
  if (s.registry.lookup name).isSome then
    (s, .error (.alreadyRegistered name))
  else if !isSubclass then
    (s, .error .typeMismatch)
  else
    ({ s with registry := s.registry ++ [(name, adapter_class)] }, .ok ())

/-- Source: `AdapterFactory.create` — returns the cached instance when one
exists; otherwise raises when the name is not registered, naming the
available adapters; otherwise constructs an instance of the registered
class, caches it and returns it. -/
def create (s : FactoryState) (name : String) :
    FactoryState × Except FactoryError AdapterInstance :=
  match s.instances.lookup name with
  | some inst => (s, .ok inst)
  | none =>
    match s.registry.lookup name with
    | none =>
        (s, .error (.notRegistered name (get_registered_adapters s)))
    | some adapter_class =>
        let inst : AdapterInstance := ⟨adapter_class, s.constructions⟩
        ({ s with
            instances := s.instances ++ [(name, inst)]
            constructions := s.constructions + 1 },
          .ok inst)

end AdapterFactory

/-- Run a sequence of `create` calls, keeping only the evolving state. -/
def createAll (s : FactoryState) (names : List String) : FactoryState :=
  names.foldl (fun st n => (AdapterFactory.create st n).1) s

/-- At most one live instance per name: no name occurs twice as a key of
the instance cache. -/
def atMostOneInstancePerName (s : FactoryState) : Prop :=
  ∀ n : String, (s.instances.map Prod.fst).count n ≤ 1

/-! ### Helper lemmas about association lists used as dicts -/

theorem count_map_fst_eq_zero_of_lookup_none {β : Type} {l : List (String × β)}
    {a : String} (h : l.lookup a = none) : (l.map Prod.fst).count a = 0 := by
  rw [List.count_eq_zero]
  intro hmem
  obtain ⟨p, hp, hfst⟩ := List.mem_map.mp hmem
  have hb := (List.lookup_eq_none_iff.mp h) p hp
  simp [hfst] at hb

theorem create_cached (t : FactoryState) (n : String) (inst : AdapterInstance)
    (h : t.instances.lookup n = some inst) :
    AdapterFactory.create t n = (t, .ok inst) := by
  simp [AdapterFactory.create, h]

theorem atMostOne_create (t : FactoryState) (n : String)
    (h : atMostOneInstancePerName t) :
    atMostOneInstancePerName (AdapterFactory.create t n).1 := by
  unfold AdapterFactory.create
  cases hinst : t.instances.lookup n with
  | some inst => simpa using h
  | none =>
    cases hreg : t.registry.lookup n with
    | none => simpa using h
    | some cls =>
      intro m
      have hm' := h m
      by_cases hm : m = n
      · subst hm
        have h0 : (t.instances.map Prod.fst).count m = 0 :=
          count_map_fst_eq_zero_of_lookup_none hinst
        simp [List.count_append, h0]
      · simpa [List.count_append, List.count_cons, Ne.symm hm] using hm'

theorem atMostOne_createAll (t : FactoryState) (names : List String)
    (h : atMostOneInstancePerName t) :
    atMostOneInstancePerName (createAll t names) := by
  induction names generalizing t with
  | nil => simpa [createAll] using h
  | cons n ns ih =>
    rw [createAll, List.foldl_cons]
    exact ih _ (atMostOne_create t n h)

/-! ### Claims about the factory -/

/-- C1: `AdapterFactory.create` returns the cached instance when the cache
holds one for the name; otherwise, when the name is registered, it
constructs an instance of the registered class, stores it in the cache
under the name and returns it, leaving the registry unchanged; otherwise it
fails with an error listing the currently registered adapter names. -/
theorem C1_create_resolution (s : FactoryState) (name : String) :
    (∀ inst, s.instances.lookup name = some inst →
      AdapterFactory.create s name = (s, .ok inst)) ∧
    (s.instances.lookup name = none →
      ∀ cls, s.registry.lookup name = some cls →
        ∃ inst : AdapterInstance, inst.className = cls ∧
          (AdapterFactory.create s name).2 = .ok inst ∧
          (AdapterFactory.create s name).1.instances.lookup name = some inst ∧
          (AdapterFactory.create s name).1.registry = s.registry) ∧
    (s.instances.lookup name = none → s.registry.lookup name = none →
      AdapterFactory.create s name =
        (s, .error (.notRegistered name (AdapterFactory.get_registered_adapters s)))) := by
  refine ⟨?_, ?_, ?_⟩
  · intro inst h
    simp [AdapterFactory.create, h]
  · intro h cls hreg
    refine ⟨⟨cls, s.constructions⟩, rfl, ?_, ?_, ?_⟩ <;>
      simp [AdapterFactory.create, h, hreg, List.lookup_append]
  · intro h hreg
    simp [AdapterFactory.create, h, hreg]

/-- C2: starting from a state where the name is registered and not yet
cached, two successive `create` calls return the same result, the second
call does not change the state, and exactly one construction happens in
total; and any sequence of `create` calls preserves the invariant that at
most one live instance exists per name. -/
theorem C2_create_singleton (s : FactoryState) (name cls : String) :
    (s.registry.lookup name = some cls → s.instances.lookup name = none →
      (AdapterFactory.create (AdapterFactory.create s name).1 name).2
          = (AdapterFactory.create s name).2 ∧
      (AdapterFactory.create (AdapterFactory.create s name).1 name).1
          = (AdapterFactory.create s name).1 ∧
      (AdapterFactory.create s name).1.constructions = s.constructions + 1 ∧
      (AdapterFactory.create (AdapterFactory.create s name).1 name).1.constructions
          = s.constructions + 1) ∧
    (∀ t : FactoryState, ∀ names : List String,
      atMostOneInstancePerName t → atMostOneInstancePerName (createAll t names)) := by
  constructor
  · intro hreg hnone
    have h1 : AdapterFactory.create s name =
        ({ s with
            instances := s.instances ++ [(name, ⟨cls, s.constructions⟩)]
            constructions := s.constructions + 1 },
          .ok ⟨cls, s.constructions⟩) := by
      simp [AdapterFactory.create, hreg, hnone]
    have h2 : (AdapterFactory.create s name).1.instances.lookup name
        = some ⟨cls, s.constructions⟩ := by
      rw [h1]
      simp [List.lookup_append, hnone]
    have h3 := create_cached _ _ _ h2
    refine ⟨?_, ?_, ?_, ?_⟩
    · rw [h3, h1]
    · rw [h3]
    · rw [h1]
    · rw [h3, h1]
  · intro t names h
    exact atMostOne_createAll t names h

/-- C8: registering a name that is already present fails with the
duplicate-registration error and leaves the whole factory state (registry
and instance cache alike) unchanged. -/
theorem C8_register_duplicate (s : FactoryState) (name : String)
    (adapter_class cls : String) (isSub : Bool)
    (h : s.registry.lookup name = some cls) :
    AdapterFactory.register s name adapter_class isSub
      = (s, .error (.alreadyRegistered name)) := by
  simp [AdapterFactory.register, h]

/-! ### Concrete factory states for witnesses -/

def demoState : FactoryState :=
  { registry := [("postgres", "PostgresAdapter")], instances := [], constructions := 0 }

def demoInstance : AdapterInstance := ⟨"PostgresAdapter", 0⟩

def demoCached : FactoryState :=
  { registry := [("postgres", "PostgresAdapter")],
    instances := [("postgres", demoInstance)], constructions := 1 }

/-- Witness for C1 at concrete states: the cached branch, the construct
branch and the unknown-name branch are all reachable. -/
theorem C1_create_resolution_witness :
    AdapterFactory.create demoCached "postgres" = (demoCached, .ok demoInstance) ∧
    ((AdapterFactory.create demoState "postgres").1.instances.lookup
        "postgres").isSome = true ∧
    AdapterFactory.create demoState "oracle"
      = (demoState, .error (.notRegistered "oracle" ["postgres"])) := by
  refine ⟨(C1_create_resolution demoCached "postgres").1 demoInstance rfl, ?_, ?_⟩
  · obtain ⟨inst, -, -, hsome, -⟩ :=
      (C1_create_resolution demoState "postgres").2.1 rfl "PostgresAdapter" rfl
    simp [hsome]
  · simpa [AdapterFactory.get_registered_adapters, demoState] using
      (C1_create_resolution demoState "oracle").2.2 rfl rfl

/-- Witness for C2 at a concrete state. -/
theorem C2_create_singleton_witness :
    (AdapterFactory.create (AdapterFactory.create demoState "postgres").1 "postgres").2
        = (AdapterFactory.create demoState "postgres").2 ∧
    (AdapterFactory.create demoState "postgres").1.constructions = 1 ∧
    ((createAll demoState ["postgres", "postgres", "oracle"]).instances.map
        Prod.fst).count "postgres" ≤ 1 := by
  obtain ⟨h1, -, h3, -⟩ :=
    (C2_create_singleton demoState "postgres" "PostgresAdapter").1 rfl rfl
  refine ⟨h1, h3, ?_⟩
  exact (C2_create_singleton demoState "postgres" "PostgresAdapter").2 demoState
    ["postgres", "postgres", "oracle"] (fun n => by simp [demoState]) "postgres"

/-- Witness for C8 at a concrete state. -/
theorem C8_register_duplicate_witness :
    AdapterFactory.register demoState "postgres" "MySQLAdapter" true
      = (demoState, .error (.alreadyRegistered "postgres")) :=
  C8_register_duplicate demoState "postgres" "MySQLAdapter" "PostgresAdapter" true rfl

/-! ### Update claims (C4, C9) -/

/-- The record update the spec describes: the provided fields are set and
every other field of the record is untouched. -/
def appliedUpdate (title author : Option String) (year : Option Int)
    (b : Book) : Book :=
  { b with
    title := title.getD b.title
    author := author.getD b.author
    year := year.getD b.year }

/-- What C4 requires of one update call: positionally, every row with a
different identifier is unchanged and every row with the requested
identifier receives exactly the provided fields; a call with no fields is a
read of the current row with the table unchanged; a call on an absent
identifier returns the absent marker. -/
def UpdateContract (db : List Book) (book_id : String)
    (title author : Option String) (year : Option Int)
    (out : List Book × Option Book) : Prop :=
  List.Forall₂ (fun old new =>
      new = if old.id == book_id then appliedUpdate title author year old else old)
    db out.1 ∧
  (title = none ∧ author = none ∧ year = none →
      out.1 = db ∧ out.2 = db.find? (fun b => b.id == book_id)) ∧
  (db.all (fun b => !(b.id == book_id)) = true → out.2 = none)

theorem forall₂_update_map (db : List Book) (book_id : String)
    (title author : Option String) (year : Option Int) :
    List.Forall₂ (fun old new =>
        new = if old.id == book_id then appliedUpdate title author year old else old)
      db (db.map (fun b =>
        if b.id == book_id then
          { b with
            title := title.getD b.title
            author := author.getD b.author
            year := year.getD b.year }
        else b)) := by
  rw [List.forall₂_map_right_iff]
  exact List.forall₂_same.mpr (fun x _ => by simp [appliedUpdate])

theorem forall₂_update_id (db : List Book) (book_id : String) :
    List.Forall₂ (fun old new =>
        new = if old.id == book_id then appliedUpdate none none none old else old)
      db db := by
  refine List.forall₂_same.mpr (fun x _ => ?_)
  by_cases h : x.id == book_id <;> simp [appliedUpdate, h]

theorem find?_updateMap_eq_none (db : List Book) (book_id : String)
    (title author : Option String) (year : Option Int)
    (hall : db.all (fun b => !(b.id == book_id)) = true) :
    (db.map (fun b =>
        if b.id == book_id then
          { b with
            title := title.getD b.title
            author := author.getD b.author
            year := year.getD b.year }
        else b)).find? (fun b => b.id == book_id) = none := by
  rw [List.find?_eq_none]
  intro y hy
  obtain ⟨x, hx, rfl⟩ := List.mem_map.mp hy
  have hb := List.all_eq_true.mp hall x hx
  simp only [Bool.not_eq_eq_eq_not, Bool.not_true] at hb
  simp [hb]

theorem find?_eq_none_of_all (db : List Book) (book_id : String)
    (hall : db.all (fun b => !(b.id == book_id)) = true) :
    db.find? (fun b => b.id == book_id) = none := by
  rw [List.find?_eq_none]
  intro x hx
  have hb := List.all_eq_true.mp hall x hx
  simp only [Bool.not_eq_eq_eq_not, Bool.not_true] at hb
  simp [hb]

/-- C4: for both adapters, `update_book` applies exactly the provided
fields to the row with the given identifier, leaves every other row (and
every unspecified field) unchanged, behaves as a plain read with the table
unchanged when no field is provided, and returns the absent marker when no
row has the identifier. -/
theorem C4_update_book_spec (db : List Book) (book_id : String)
    (title author : Option String) (year : Option Int) :
    UpdateContract db book_id title author year
        (PostgresAdapter.update_book db book_id title author year) ∧
    UpdateContract db book_id title author year
        (MySQLAdapter.update_book db book_id title author year) := by
  constructor
  · unfold UpdateContract PostgresAdapter.update_book
    by_cases hc : (title.isNone && author.isNone && year.isNone) = true
    · rw [if_pos hc]
      simp only [Bool.and_eq_true, Option.isNone_iff_eq_none] at hc
      obtain ⟨⟨rfl, rfl⟩, rfl⟩ := hc
      exact ⟨forall₂_update_id db book_id, fun _ => ⟨rfl, rfl⟩,
        fun hall => find?_eq_none_of_all db book_id hall⟩
    · rw [if_neg hc]
      refine ⟨forall₂_update_map db book_id title author year, ?_, ?_⟩
      · rintro ⟨rfl, rfl, rfl⟩
        simp at hc
      · intro hall
        exact find?_updateMap_eq_none db book_id title author year hall
  · unfold UpdateContract MySQLAdapter.update_book MySQLAdapter.get_book
    by_cases hc : (title.isNone && author.isNone && year.isNone) = true
    · rw [if_pos hc]
      simp only [Bool.and_eq_true, Option.isNone_iff_eq_none] at hc
      obtain ⟨⟨rfl, rfl⟩, rfl⟩ := hc
      exact ⟨forall₂_update_id db book_id, fun _ => ⟨rfl, rfl⟩,
        fun hall => find?_eq_none_of_all db book_id hall⟩
    · rw [if_neg hc]
      refine ⟨forall₂_update_map db book_id title author year, ?_, ?_⟩
      · rintro ⟨rfl, rfl, rfl⟩
        simp at hc
      · intro hall
        have h0 : db.countP (fun b => b.id == book_id) = 0 := by
          rw [List.countP_eq_zero]
          intro x hx
          have hb := List.all_eq_true.mp hall x hx
          simp only [Bool.not_eq_eq_eq_not, Bool.not_true] at hb
          simp [hb]
        simp [h0]

/-- C9: for both adapters and whatever combination of fields is provided,
`update_book` never changes the identifier or the creation timestamp of any
row: the sequences of ids and of creation timestamps of the table are
exactly what they were before the call. -/
theorem C9_update_preserves_id_and_created_on (db : List Book) (book_id : String)
    (title author : Option String) (year : Option Int) :
    ((PostgresAdapter.update_book db book_id title author year).1.map Book.id
        = db.map Book.id ∧
     (PostgresAdapter.update_book db book_id title author year).1.map Book.created_on
        = db.map Book.created_on) ∧
    ((MySQLAdapter.update_book db book_id title author year).1.map Book.id
        = db.map Book.id ∧
     (MySQLAdapter.update_book db book_id title author year).1.map Book.created_on
        = db.map Book.created_on) := by
  constructor
  · unfold PostgresAdapter.update_book
    by_cases hc : (title.isNone && author.isNone && year.isNone) = true
    · rw [if_pos hc]
      exact ⟨rfl, rfl⟩
    · rw [if_neg hc]
      constructor <;>
      · show (db.map _).map _ = _
        rw [List.map_map]
        refine List.map_congr_left (fun x _ => ?_)
        by_cases h : x.id = book_id <;> simp [h]
  · unfold MySQLAdapter.update_book
    by_cases hc : (title.isNone && author.isNone && year.isNone) = true
    · rw [if_pos hc]
      exact ⟨rfl, rfl⟩
    · rw [if_neg hc]
      constructor <;>
      · show (db.map _).map _ = _
        rw [List.map_map]
        refine List.map_congr_left (fun x _ => ?_)
        by_cases h : x.id = book_id <;> simp [h]

/-! ### Delete claim (C7) -/

/-- What C7 requires of one delete call: the boolean result is true exactly
when some row had the identifier, every row with the identifier is gone
afterwards, and every other row survives. -/
def DeleteContract (db : List Book) (book_id : String)
    (out : List Book × Bool) : Prop :=
  (out.2 = true ↔ ∃ b ∈ db, b.id = book_id) ∧
  (∀ b ∈ out.1, b.id ≠ book_id) ∧
  (∀ b ∈ db, b.id ≠ book_id → b ∈ out.1)

theorem delete_contract_generic (db : List Book) (book_id : String) :
    DeleteContract db book_id
      (db.filter (fun b => !(b.id == book_id)),
        decide (0 < db.countP (fun b => b.id == book_id))) := by
  refine ⟨?_, ?_, ?_⟩
  · simp [List.countP_pos_iff]
  · intro b hb
    have := (List.mem_filter.mp hb).2
    simpa using this
  · intro b hb hne
    exact List.mem_filter.mpr ⟨hb, by simpa using hne⟩

theorem delete_second_false (db : List Book) (book_id : String) :
    (db.filter (fun b => !(b.id == book_id))).countP
        (fun b => b.id == book_id) = 0 := by
  rw [List.countP_eq_zero]
  intro b hb
  have := (List.mem_filter.mp hb).2
  simpa using this

/-- C7: for both adapters, `delete_book` returns true exactly when a row
with the identifier existed (and it removes exactly those rows), and a
second delete of the same identifier returns false rather than failing. -/
theorem C7_delete_book_spec (db : List Book) (book_id : String) :
    DeleteContract db book_id (PostgresAdapter.delete_book db book_id) ∧
    DeleteContract db book_id (MySQLAdapter.delete_book db book_id) ∧
    (PostgresAdapter.delete_book
        (PostgresAdapter.delete_book db book_id).1 book_id).2 = false ∧
    (MySQLAdapter.delete_book
        (MySQLAdapter.delete_book db book_id).1 book_id).2 = false := by
  refine ⟨delete_contract_generic db book_id, delete_contract_generic db book_id, ?_, ?_⟩ <;>
  · show decide (0 < List.countP _ (List.filter _ db)) = false
    rw [delete_second_false]
    rfl

/-! ### Health claim (C6) -/

/-- C6: for both adapters and every outcome of the backend round-trip, the
health check returns a status record rather than propagating the failure:
it names the adapter, reports healthy on success, and on failure reports
unhealthy with the failure message embedded as data. -/
theorem C6_health_check_never_raises (r : DbOutcome) (ts : String) :
    ((PostgresAdapter.health_check r ts).adapter = "postgresql" ∧
     (∀ u : Unit, r = .ok u →
        (PostgresAdapter.health_check r ts).status = "healthy" ∧
        (PostgresAdapter.health_check r ts).error = none) ∧
     (∀ e : String, r = .error e →
        (PostgresAdapter.health_check r ts).status = "unhealthy" ∧
        (PostgresAdapter.health_check r ts).error = some e)) ∧
    ((MySQLAdapter.health_check r ts).adapter = "mysql" ∧
     (∀ u : Unit, r = .ok u →
        (MySQLAdapter.health_check r ts).status = "healthy" ∧
        (MySQLAdapter.health_check r ts).error = none) ∧
     (∀ e : String, r = .error e →
        (MySQLAdapter.health_check r ts).status = "unhealthy" ∧
        (MySQLAdapter.health_check r ts).error = some e)) := by
  cases r with
  | ok u =>
    refine ⟨⟨rfl, ?_, ?_⟩, ⟨rfl, ?_, ?_⟩⟩
    · intro _ _
      exact ⟨rfl, rfl⟩
    · intro e he
      cases he
    · intro _ _
      exact ⟨rfl, rfl⟩
    · intro e he
      cases he
  | error e =>
    refine ⟨⟨rfl, ?_, ?_⟩, ⟨rfl, ?_, ?_⟩⟩
    · intro u hu
      cases hu
    · intro x hx
      cases hx
      exact ⟨rfl, rfl⟩
    · intro u hu
      cases hu
    · intro x hx
      cases hx
      exact ⟨rfl, rfl⟩

/-! ### Concrete books for witnesses and counterexamples -/

def bookWar : Book :=
  { id := "id-1", title := "War and Peace", author := "Leo Tolstoy"
    year := 1869, created_on := 2 }

def bookDune : Book :=
  { id := "id-2", title := "Dune", author := "Frank Herbert"
    year := 1965, created_on := 1 }

def demoDb : List Book := [bookWar, bookDune]

/-- Witness for C4 at concrete inputs: a no-field call reads the current
row with the table unchanged, and an update on an absent identifier
returns the absent marker. -/
theorem C4_update_book_spec_witness :
    (MySQLAdapter.update_book demoDb "id-1" none none none).2 = some bookWar ∧
    (MySQLAdapter.update_book demoDb "id-1" none none none).1 = demoDb ∧
    (PostgresAdapter.update_book demoDb "id-9" (some "X") none none).2 = none := by
  refine ⟨?_, ?_, ?_⟩
  · have h := ((C4_update_book_spec demoDb "id-1" none none none).2).2.1 ⟨rfl, rfl, rfl⟩
    rw [h.2]
    decide
  · exact (((C4_update_book_spec demoDb "id-1" none none none).2).2.1 ⟨rfl, rfl, rfl⟩).1
  · exact ((C4_update_book_spec demoDb "id-9" (some "X") none none).1).2.2 (by decide)

/-- Witness for C7 at concrete inputs: deleting a present identifier
returns true, and the immediate second delete returns false. -/
theorem C7_delete_book_spec_witness :
    (PostgresAdapter.delete_book demoDb "id-1").2 = true ∧
    (PostgresAdapter.delete_book
        (PostgresAdapter.delete_book demoDb "id-1").1 "id-1").2 = false := by
  refine ⟨?_, (C7_delete_book_spec demoDb "id-1").2.2.1⟩
  exact ((C7_delete_book_spec demoDb "id-1").1).1.mpr ⟨bookWar, by decide, rfl⟩

/-- Witness for C6 at concrete outcomes: a failing round-trip yields an
unhealthy record embedding the message, a successful one a healthy
record. -/
theorem C6_health_check_never_raises_witness :
    (PostgresAdapter.health_check (.error "connection refused") "t0").status
        = "unhealthy" ∧
    (PostgresAdapter.health_check (.error "connection refused") "t0").error
        = some "connection refused" ∧
    (MySQLAdapter.health_check (.ok ()) "t0").status = "healthy" := by
  have hp := (C6_health_check_never_raises (.error "connection refused") "t0").1.2.2
    "connection refused" rfl
  have hm := (C6_health_check_never_raises (.ok ()) "t0").2.2.1 () rfl
  exact ⟨hp.1, hp.2, hm.1⟩

/-! ### Search claims (C3, C5, C10) -/

/-- The search predicate the amended C5 describes: each provided filter
narrows via logical AND, with title and author matched by the adapter
field matcher, a nonzero year matched exactly, and an empty-string or zero
filter treated as omitted. -/
def searchPred (fieldMatch : String → String → Bool)
    (title author : Option String) (year : Option Int) (b : Book) : Bool :=
  (match title with
   | none => true
   | some t => if t = "" then true else fieldMatch b.title t) &&
  (match author with
   | none => true
   | some a => if a = "" then true else fieldMatch b.author a) &&
  (match year with
   | none => true
   | some n => if n = 0 then true else b.year == n)

theorem strClause_eq (fm : String → String → Bool) (v : String)
    (x : Option String) :
    (!truthyStr x || fm v (x.getD "")) =
      (match x with
       | none => true
       | some t => if t = "" then true else fm v t) := by
  cases x with
  | none => rfl
  | some t => by_cases h : t = "" <;> simp [truthyStr, h]

theorem intClause_eq (b : Book) (x : Option Int) :
    (!truthyInt x || b.year == x.getD 0) =
      (match x with
       | none => true
       | some n => if n = 0 then true else b.year == n) := by
  cases x with
  | none => rfl
  | some n => by_cases h : n = 0 <;> simp [truthyInt, h]

theorem filter_search_eq (fm : String → String → Bool) (db : List Book)
    (title author : Option String) (year : Option Int) :
    db.filter (fun b =>
      (!truthyStr title || fm b.title (title.getD "")) &&
      (!truthyStr author || fm b.author (author.getD "")) &&
      (!truthyInt year || b.year == year.getD 0))
    = db.filter (searchPred fm title author year) := by
  refine List.filter_congr (fun b _ => ?_)
  rw [strClause_eq fm b.title title, strClause_eq fm b.author author,
    intClause_eq b year]
  rfl

theorem filter_searchPred_none (fm : String → String → Bool) (db : List Book) :
    db.filter (searchPred fm none none none) = db :=
  List.filter_eq_self.mpr (fun _ _ => rfl)

theorem length_orderByCreatedDesc (db : List Book) :
    (orderByCreatedDesc db).length = db.length :=
  (List.perm_insertionSort createdDesc db).length_eq

/-- C3: the spec requires title and author partial matching to be
case-insensitive regardless of the collation of the dialect, and the
Postgres adapter (ILIKE) satisfies that; but the MySQL adapter issues LIKE,
whose case behaviour follows the column collation: under a case-sensitive
collation the stored record is missed by a differently-cased filter. -/
theorem C3_mysql_like_collation_dependent :
    MySQLAdapter.search_books false [bookWar] (some "war") none none = [] ∧
    MySQLAdapter.search_books true [bookWar] (some "war") none none = [bookWar] ∧
    PostgresAdapter.search_books [bookWar] (some "war") none none = [bookWar] := by
  decide

/-- C5 counterexample: the claim as stated fails at year 0 — because of the
truthiness test `if year:` a provided year of 0 adds no clause, so a record
whose year is not 0 is still returned. -/
theorem C5_year_zero_counterexample :
    PostgresAdapter.search_books [bookDune] none none (some 0) = [bookDune] ∧
    MySQLAdapter.search_books true [bookDune] none none (some 0) = [bookDune] ∧
    bookDune.year ≠ 0 := by
  decide

/-- C5 (amended): for both adapters, `search_books` returns exactly the
records satisfying the conjunction of the provided filters — a nonzero
year matched exactly, an empty-string or zero filter treated as omitted —
ordered by creation time descending; with all filters omitted it returns
the full table in that order, the very sequence `get_books` returns for
skip 0 and any limit at least the table size. -/
theorem C5_search_composition (db : List Book)
    (title author : Option String) (year : Option Int) (L : Nat) :
    ((PostgresAdapter.search_books db title author year).Perm
        (db.filter (searchPred ilikeMatch title author year)) ∧
      List.Sorted createdDesc (PostgresAdapter.search_books db title author year)) ∧
    (∀ ci, (MySQLAdapter.search_books ci db title author year).Perm
        (db.filter (searchPred (mysqlLikeMatch ci) title author year)) ∧
      List.Sorted createdDesc (MySQLAdapter.search_books ci db title author year)) ∧
    (db.length ≤ L →
      PostgresAdapter.search_books db none none none
          = PostgresAdapter.get_books db 0 L ∧
      ∀ ci, MySQLAdapter.search_books ci db none none none
          = MySQLAdapter.get_books db 0 L) := by
  have hpg : PostgresAdapter.search_books db title author year
      = orderByCreatedDesc (db.filter (searchPred ilikeMatch title author year)) := by
    simp only [PostgresAdapter.search_books]
    rw [filter_search_eq]
  have hmy : ∀ ci, MySQLAdapter.search_books ci db title author year
      = orderByCreatedDesc
          (db.filter (searchPred (mysqlLikeMatch ci) title author year)) := by
    intro ci
    simp only [MySQLAdapter.search_books]
    rw [filter_search_eq]
  refine ⟨⟨?_, ?_⟩, ?_, ?_⟩
  · rw [hpg]
    exact List.perm_insertionSort _ _
  · rw [hpg]
    exact List.sorted_insertionSort _ _
  · intro ci
    constructor
    · rw [hmy ci]
      exact List.perm_insertionSort _ _
    · rw [hmy ci]
      exact List.sorted_insertionSort _ _
  · intro hL
    have hfull : ∀ fm : String → String → Bool,
        orderByCreatedDesc (db.filter (searchPred fm none none none))
          = orderByCreatedDesc db := by
      intro fm
      rw [filter_searchPred_none]
    have htake : (orderByCreatedDesc db).take L = orderByCreatedDesc db := by
      apply List.take_of_length_le
      rw [length_orderByCreatedDesc]
      exact hL
    constructor
    · show PostgresAdapter.search_books db none none none
        = ((orderByCreatedDesc db).drop 0).take L
      rw [List.drop_zero, htake]
      have h0 : PostgresAdapter.search_books db none none none
          = orderByCreatedDesc (db.filter (searchPred ilikeMatch none none none)) := by
        simp only [PostgresAdapter.search_books]
        rw [filter_search_eq]
      rw [h0, hfull]
    · intro ci
      show MySQLAdapter.search_books ci db none none none
        = ((orderByCreatedDesc db).drop 0).take L
      rw [List.drop_zero, htake]
      have h0 : MySQLAdapter.search_books ci db none none none
          = orderByCreatedDesc
              (db.filter (searchPred (mysqlLikeMatch ci) none none none)) := by
        simp only [MySQLAdapter.search_books]
        rw [filter_search_eq]
      rw [h0, hfull]

/-- Witness for C5 at concrete inputs. -/
theorem C5_search_composition_witness :
    PostgresAdapter.search_books demoDb none none none
        = PostgresAdapter.get_books demoDb 0 100 ∧
    (PostgresAdapter.search_books demoDb (some "war") none (some 1869)).Perm
        (demoDb.filter (searchPred ilikeMatch (some "war") none (some 1869))) := by
  constructor
  · exact ((C5_search_composition demoDb none none none 100).2.2 (by decide)).1
  · exact ((C5_search_composition demoDb (some "war") none (some 1869) 100).1).1

/-- C10: an empty-string title or author filter is falsy, so for both
adapters a search with an empty-string filter is the very same call as the
search with that filter omitted. -/
theorem C10_empty_filter_no_narrowing (db : List Book)
    (other : Option String) (year : Option Int) :
    (PostgresAdapter.search_books db (some "") other year
        = PostgresAdapter.search_books db none other year) ∧
    (PostgresAdapter.search_books db other (some "") year
        = PostgresAdapter.search_books db other none year) ∧
    (∀ ci, MySQLAdapter.search_books ci db (some "") other year
        = MySQLAdapter.search_books ci db none other year) ∧
    (∀ ci, MySQLAdapter.search_books ci db other (some "") year
        = MySQLAdapter.search_books ci db other none year) :=
  ⟨rfl, rfl, fun _ => rfl, fun _ => rfl⟩
